import Mathlib

/-!
# Verification of the autoz-control-tower connection registry and fan-out engine

Shallow embedding of the Go sources:
* `internal/config` (ClusterConfig, MultiClusterConfig, setDefaults, validateConfig)
* `internal/cluster` (Manager, connectToAllClusters, GetClient, GetDefaultClient,
  ListClusters, TestConnections)
* `internal/workload` (ListDeployments, getDeploymentsFromCluster, DeployToCluster,
  DeployToMultipleClusters, formatDuration)

Network effects (kubeconfig loading, client construction, liveness probe, the
Kubernetes List/Get/Create/Update calls) are abstracted as oracle parameters;
everything else is translated statement by statement from the source.  Go maps
are modelled as association lists keyed by cluster name; goroutine fan-out with
channel fan-in is modelled as a fold over the targets in input order (the claims
under study are insensitive to completion order).  A Go panic (nil-pointer
dereference) is modelled as `Option.none`.
-/

namespace AutozCT

/-- Model of `config.ClusterConfig` from the source: one endpoint descriptor. -/
structure ClusterConfig where
  name : String
  context : String
  kubeConfig : String
  region : String
  environment : String
  isDefault : Bool
  deriving Repr, DecidableEq

/-- Model of `config.MultiClusterConfig` from the source. -/
structure MultiClusterConfig where
  clusters : List ClusterConfig
  defaultNamespace : String
  timeout : Int
  deriving Repr, DecidableEq

/-- Model of `config.setDefaults` from the source: fills default namespace, default
timeout, and if no cluster is marked default marks the first one. -/
def setDefaults (config : MultiClusterConfig) : MultiClusterConfig :=
  let ns := if config.defaultNamespace = "" then "default" else config.defaultNamespace
  let tmo := if config.timeout = 0 then 30 else config.timeout
  let hasDefault := config.clusters.any (fun c => c.isDefault)
  let clusters :=
    if !hasDefault && !config.clusters.isEmpty then
      match config.clusters with
      | [] => []
      | c :: rest => { c with isDefault := true } :: rest
    else config.clusters
  { clusters := clusters, defaultNamespace := ns, timeout := tmo }

/-- Model of `config.validateConfig` from the source, restricted to its pure checks
(the kubeconfig-file existence check is a filesystem effect and is outside the
claims).  Returns an error message or success. -/
def validateConfig (config : MultiClusterConfig) : Except String Unit :=
  if config.clusters.isEmpty then
    .error "no clusters defined in configuration"
  else if config.clusters.any (fun c => c.name = "") then
    .error "cluster has no name"
  else if config.clusters.any (fun c => c.context = "") then
    .error "cluster has no context specified"
  else if !(config.clusters.map (fun c => c.name)).Nodup then
    .error "duplicate cluster name"
  else
    .ok ()

/-- C6: for every configuration with a non-empty cluster list in which no entry
is marked default, `setDefaults` marks the first cluster in input order as
default and afterwards exactly one default exists. -/
theorem C6_setDefaults_first_becomes_default (config : MultiClusterConfig)
    (hne : config.clusters ≠ [])
    (hnd : ∀ c ∈ config.clusters, c.isDefault = false) :
    ∃ c cs, config.clusters = c :: cs ∧
      (setDefaults config).clusters = { c with isDefault := true } :: cs ∧
      ((setDefaults config).clusters.countP (fun c => c.isDefault)) = 1 := by
  match h : config.clusters with
  | [] => exact absurd h hne
  | c :: cs =>
    refine ⟨c, cs, rfl, ?_, ?_⟩
    · simp only [setDefaults, h]
      have hall : ((c :: cs).any fun c => c.isDefault) = false := by
        simp only [List.any_eq_false]
        intro x hx
        simpa using hnd x (h ▸ hx)
      simp [hall]
    · have hall : ((c :: cs).any fun c => c.isDefault) = false := by
        simp only [List.any_eq_false]
        intro x hx
        simpa using hnd x (h ▸ hx)
      simp only [setDefaults, h, hall]
      simp only [Bool.not_false, List.isEmpty_cons, Bool.not_false, Bool.and_self,
        if_pos]
      rw [List.countP_cons]
      have hcs : cs.countP (fun c => c.isDefault) = 0 := by
        rw [List.countP_eq_zero]
        intro x hx
        have := hnd x (h ▸ List.mem_cons_of_mem c hx)
        simpa using this
      simp [hcs]

/-- A concrete two-cluster configuration with no default marked, used as a
witness input. -/
def c6cfg : MultiClusterConfig :=
  { clusters := [⟨"a", "ctx-a", "", "", "", false⟩, ⟨"b", "ctx-b", "", "", "", false⟩],
    defaultNamespace := "", timeout := 0 }

/-- Witness for C6 at a concrete two-cluster configuration. -/
theorem C6_setDefaults_first_becomes_default_witness :
    ∃ c cs, c6cfg.clusters = c :: cs ∧
      (setDefaults c6cfg).clusters = { c with isDefault := true } :: cs ∧
      ((setDefaults c6cfg).clusters.countP (fun c => c.isDefault)) = 1 :=
  C6_setDefaults_first_becomes_default c6cfg (by decide) (by decide)

/-! ## Cluster manager (`internal/cluster/manager.go`) -/

/-- Outcome of the network side of one connection attempt (kubeconfig load,
client construction, liveness probe), abstracted as an oracle: either every
step succeeded, or some step failed with an error message. -/
inductive ConnectOutcome where
  | ok
  | fail (err : String)
  deriving Repr, DecidableEq

/-- Model of `cluster.ClusterClient` from the source (the opaque `Clientset` and
`RestConfig` capabilities carry no information relevant to the claims and are
dropped; `Error` is the connection error when the attempt failed). -/
structure ClusterClient where
  config : ClusterConfig
  connected : Bool
  error : Option String
  deriving Repr, DecidableEq

/-- Model of `cluster.Manager.connectToCluster` from the source: on success the client
records `Connected=true` and no error; on any step failure it records
`Connected=false` together with the error. -/
def connectToCluster (connect : ClusterConfig → ConnectOutcome)
    (cc : ClusterConfig) : ClusterClient :=
  match connect cc with
  | .ok => { config := cc, connected := true, error := none }
  | .fail e => { config := cc, connected := false, error := some e }

/-- Model of `cluster.Manager` from the source: the clients map (modelled as an
association list keyed by cluster name, in config order, which is the order the
sequentialised channel fan-in delivers results) plus the configuration. -/
structure Manager where
  clients : List (String × ClusterClient)
  config : MultiClusterConfig
  deriving Repr, DecidableEq

/-- The per-endpoint failure message built by `connectToAllClusters`
(`"Failed to connect to %s: %v"`), `none` for endpoints that connected. -/
def failMessage (connect : ClusterConfig → ConnectOutcome)
    (cc : ClusterConfig) : Option String :=
  match connect cc with
  | .ok => none
  | .fail e => some ("Failed to connect to " ++ cc.name ++ ": " ++ e)

/-- Model of `cluster.Manager.connectToAllClusters` from the source: one connection
attempt per configured cluster, every resulting client stored in the map keyed
by its config name, failure messages collected; if zero attempts succeeded the
aggregated error (the list of per-endpoint messages that Go joins with
newlines) is returned alongside the populated map, otherwise no error. -/
def connectToAllClusters (connect : ClusterConfig → ConnectOutcome)
    (cfg : MultiClusterConfig) :
    List (String × ClusterClient) × Option (List String) :=
  let results := cfg.clusters.map (connectToCluster connect)
  let clients := results.map (fun c => (c.config.name, c))
  let errs := cfg.clusters.filterMap (failMessage connect)
  let succ := (results.filter (fun c => c.connected)).length
  if succ = 0 then (clients, some errs) else (clients, none)

/-- Model of `cluster.NewManager` from the source: builds the manager, connects to all
clusters, and fails (wrapping the aggregated error) exactly when
`connectToAllClusters` reported an error. -/
def NewManager (connect : ClusterConfig → ConnectOutcome)
    (cfg : MultiClusterConfig) : Except (List String) Manager :=
  match connectToAllClusters connect cfg with
  | (_, some errs) => .error errs
  | (clients, none) => .ok { clients := clients, config := cfg }

/-- Rendering of a Go `error` value in a format string (`nil` prints as
`<nil>`). -/
def errText : Option String → String
  | some e => e
  | none => "<nil>"

/-- Model of `cluster.Manager.GetClient` from the source.  The method only takes the
read lock and writes nothing, so the state-passing translation returns the
manager unchanged in every branch. -/
def getClient (m : Manager) (clusterName : String) :
    Except String ClusterClient × Manager :=
  match m.clients.lookup clusterName with
  | none => (.error ("cluster " ++ clusterName ++ " not found in configuration"), m)
  | some client =>
    if client.connected then (.ok client, m)
    else (.error ("cluster " ++ clusterName ++ " is not connected: " ++
            errText client.error), m)

/-- Model of `cluster.Manager.GetDefaultClient` from the source: scan the configured
clusters for the first one marked default and delegate to `GetClient` for it;
only when none is marked default, fall back to the first connected client in
the map, erring if there is none. -/
def getDefaultClient (m : Manager) : Except String ClusterClient × Manager :=
  match m.config.clusters.find? (fun cc => cc.isDefault) with
  | some cc => getClient m cc.name
  | none =>
    match (m.clients.map Prod.snd).find? (fun c => c.connected) with
    | some client => (.ok client, m)
    | none => (.error "no connected clusters available", m)

/-- Model of `cluster.ClusterStatus` from the source. -/
structure ClusterStatus where
  name : String
  environment : String
  region : String
  connected : Bool
  isDefault : Bool
  error : String
  deriving Repr, DecidableEq

/-- Model of `cluster.Manager.ListClusters` from the source: a status snapshot per
stored client; read-only, so the manager is returned unchanged. -/
def listClusters (m : Manager) : List ClusterStatus × Manager :=
  (m.clients.map (fun p =>
    { name := p.2.config.name
      environment := p.2.config.environment
      region := p.2.config.region
      connected := p.2.connected
      isDefault := p.2.config.isDefault
      error := match p.2.error with | some e => e | none => "" }), m)

/-- Model of `cluster.Manager.TestConnections` from the source: re-probe every
currently-connected client (`probe` abstracts the `ServerVersion` call),
aggregate all probe failures, and leave every stored handle untouched. -/
def testConnections (probe : String → Option String) (m : Manager) :
    Option (List String) × Manager :=
  let errs := m.clients.filterMap (fun p =>
    if p.2.connected then
      (probe p.1).map (fun e => "Cluster " ++ p.1 ++ ": " ++ e)
    else none)
  (if errs.isEmpty then none else some errs, m)

/-! ## Helper lemmas about the connection fold -/

theorem connectToCluster_config (connect : ClusterConfig → ConnectOutcome)
    (cc : ClusterConfig) : (connectToCluster connect cc).config = cc := by
  unfold connectToCluster; cases connect cc <;> rfl

theorem connectToCluster_connected_iff (connect : ClusterConfig → ConnectOutcome)
    (cc : ClusterConfig) :
    (connectToCluster connect cc).connected = true ↔ connect cc = .ok := by
  unfold connectToCluster; cases connect cc <;> simp

theorem failMessage_isSome (connect : ClusterConfig → ConnectOutcome)
    (cc : ClusterConfig) :
    (failMessage connect cc).isSome = !(connectToCluster connect cc).connected := by
  unfold failMessage connectToCluster; cases connect cc <;> rfl

theorem length_filterMap_of_isSome {α β : Type} (f : α → Option β) (l : List α)
    (h : ∀ x ∈ l, (f x).isSome) : (l.filterMap f).length = l.length := by
  induction l with
  | nil => rfl
  | cons a l ih =>
    rw [List.filterMap_cons]
    cases hf : f a with
    | none =>
      have := h a (List.mem_cons_self a l)
      rw [hf] at this
      simp at this
    | some b =>
      simp only [List.length_cons]
      rw [ih (fun x hx => h x (List.mem_cons_of_mem a hx))]

theorem NewManager_eq (connect : ClusterConfig → ConnectOutcome)
    (cfg : MultiClusterConfig) :
    NewManager connect cfg =
      if ((cfg.clusters.map (connectToCluster connect)).filter
            (fun c => c.connected)).length = 0
      then .error (cfg.clusters.filterMap (failMessage connect))
      else .ok { clients := (cfg.clusters.map (connectToCluster connect)).map
                   (fun c => (c.config.name, c)), config := cfg } := by
  by_cases h : ((cfg.clusters.map (connectToCluster connect)).filter
      (fun c => c.connected)).length = 0 <;>
    simp [NewManager, connectToAllClusters, h]

/-- C1: for every non-empty endpoint configuration with unique names,
`NewManager` (via `connectToAllClusters`) returns a registry exactly when at
least one connection attempt succeeds, and when zero attempts succeed it fails
with an aggregated error carrying one message per failed endpoint — every
configured endpoint is listed. -/
theorem C1_initialize_succeeds_iff (connect : ClusterConfig → ConnectOutcome)
    (cfg : MultiClusterConfig) (hne : cfg.clusters ≠ [])
    (hu : (cfg.clusters.map (fun c => c.name)).Nodup) :
    ((∃ mgr, NewManager connect cfg = .ok mgr) ↔
      ∃ cc ∈ cfg.clusters, (connectToCluster connect cc).connected = true) ∧
    (∀ errs, NewManager connect cfg = .error errs →
      errs = cfg.clusters.filterMap (failMessage connect) ∧
      errs.length = cfg.clusters.length) := by
  have hNM := NewManager_eq connect cfg
  by_cases h : ((cfg.clusters.map (connectToCluster connect)).filter
      (fun c => c.connected)).length = 0
  · rw [if_pos h] at hNM
    rw [List.length_eq_zero, List.filter_eq_nil_iff] at h
    have hall : ∀ cc ∈ cfg.clusters, (connectToCluster connect cc).connected = false := by
      intro cc hcc
      have := h _ (List.mem_map_of_mem (connectToCluster connect) hcc)
      simpa using this
    refine ⟨⟨?_, ?_⟩, ?_⟩
    · rintro ⟨mgr, hmgr⟩
      rw [hNM] at hmgr
      cases hmgr
    · rintro ⟨cc, hcc, hcon⟩
      rw [hall cc hcc] at hcon
      cases hcon
    intro errs herrs
    rw [hNM] at herrs
    have herrs' : cfg.clusters.filterMap (failMessage connect) = errs :=
      Except.error.inj herrs
    refine ⟨herrs'.symm, ?_⟩
    rw [← herrs']
    apply length_filterMap_of_isSome
    intro cc hcc
    rw [failMessage_isSome, hall cc hcc]
    rfl
  · rw [if_neg h] at hNM
    have hex : ∃ cc ∈ cfg.clusters, (connectToCluster connect cc).connected = true := by
      have hpos : 0 < ((cfg.clusters.map (connectToCluster connect)).filter
          (fun c => c.connected)).length := Nat.pos_of_ne_zero h
      obtain ⟨x, hx⟩ := List.exists_mem_of_length_pos hpos
      rw [List.mem_filter] at hx
      obtain ⟨hxm, hxc⟩ := hx
      rw [List.mem_map] at hxm
      obtain ⟨cc, hcc, rfl⟩ := hxm
      exact ⟨cc, hcc, hxc⟩
    exact ⟨⟨fun _ => hex, fun _ => ⟨_, hNM⟩⟩,
           fun errs herrs => by rw [hNM] at herrs; cases herrs⟩

/-- A concrete connection oracle for witnesses: endpoint `b` is reachable,
everything else fails with a dial timeout. -/
def wConnect : ClusterConfig → ConnectOutcome :=
  fun cc => if cc.name = "b" then .ok else .fail "dial timeout"

/-- A concrete two-endpoint configuration: `a` is marked default (and will be
unreachable under `wConnect`), `b` is not default (and reachable). -/
def wCfg : MultiClusterConfig :=
  { clusters := [⟨"a", "ctx-a", "", "", "", true⟩, ⟨"b", "ctx-b", "", "", "", false⟩],
    defaultNamespace := "default", timeout := 30 }

/-- Witness for C1: under `wConnect`, endpoint `b` of `wCfg` connects, so
initialization returns a registry. -/
theorem C1_initialize_succeeds_iff_witness :
    ∃ mgr, NewManager wConnect wCfg = .ok mgr :=
  ((C1_initialize_succeeds_iff wConnect wCfg (by decide) (by decide)).1).mpr
    ⟨⟨"b", "ctx-b", "", "", "", false⟩, by decide, by decide⟩

/-- C2 counterexample: from `wCfg` under `wConnect`, initialization succeeds,
the registry holds a connected endpoint (`b`), yet `GetDefaultClient` returns
an error because the endpoint marked default (`a`) is not connected — there is
no fallback to the first connected endpoint, refuting the claim that an error
occurs only when no endpoint is connected. -/
theorem C2_getDefaultClient_counterexample :
    (NewManager wConnect wCfg).toOption.map (fun m =>
      ((getDefaultClient m).1, m.clients.any (fun p => p.2.connected))) =
    some (.error "cluster a is not connected: dial timeout", true) := by rfl

/-- C2 amended: `GetDefaultClient` delegates to `GetClient` for the first
endpoint marked default when one exists (so it errors if that endpoint is
unconnected, even when others are connected); only when no endpoint is marked
default does it fall back to the first connected handle, erring exactly when
additionally no handle is connected. -/
theorem C2_getDefaultClient_amended (m : Manager) :
    (∀ cc, m.config.clusters.find? (fun c => c.isDefault) = some cc →
       getDefaultClient m = getClient m cc.name) ∧
    (m.config.clusters.find? (fun c => c.isDefault) = none →
       ((∃ p ∈ m.clients, p.2.connected = true) →
          ∃ c, (getDefaultClient m).1 = .ok c ∧ c.connected = true) ∧
       ((∀ p ∈ m.clients, p.2.connected = false) →
          (getDefaultClient m).1 = .error "no connected clusters available")) := by
  constructor
  · intro cc hcc
    unfold getDefaultClient
    rw [hcc]
  · intro hnone
    constructor
    · rintro ⟨p, hp, hpc⟩
      unfold getDefaultClient
      rw [hnone]
      have hsome : ((m.clients.map Prod.snd).find? (fun c => c.connected)).isSome := by
        rw [List.find?_isSome]
        exact ⟨p.2, List.mem_map_of_mem Prod.snd hp, hpc⟩
      cases hf : (m.clients.map Prod.snd).find? (fun c => c.connected) with
      | none => rw [hf] at hsome; cases hsome
      | some c => exact ⟨c, rfl, List.find?_some hf⟩
    · intro hall
      unfold getDefaultClient
      rw [hnone]
      cases hf : (m.clients.map Prod.snd).find? (fun c => c.connected) with
      | none => rfl
      | some c =>
        have hc := List.find?_some hf
        have hmem := List.mem_of_find?_eq_some hf
        rw [List.mem_map] at hmem
        obtain ⟨p, hp, rfl⟩ := hmem
        rw [hall p hp] at hc
        cases hc

/-- The concrete manager state produced from `wCfg` under `wConnect`, used as
witness input for registry-level theorems. -/
def c2mgr : Manager :=
  { clients := [("a", connectToCluster wConnect ⟨"a", "ctx-a", "", "", "", true⟩),
                ("b", connectToCluster wConnect ⟨"b", "ctx-b", "", "", "", false⟩)],
    config := wCfg }

/-- Witness for the amended C2: on `c2mgr` the marked-default endpoint `a`
resolves through `GetClient`. -/
theorem C2_getDefaultClient_amended_witness :
    getDefaultClient c2mgr = getClient c2mgr "a" :=
  (C2_getDefaultClient_amended c2mgr).1 ⟨"a", "ctx-a", "", "", "", true⟩ rfl

/-! ## Registry map invariants -/

theorem connectToAllClusters_clients (connect : ClusterConfig → ConnectOutcome)
    (cfg : MultiClusterConfig) :
    (connectToAllClusters connect cfg).1 =
      cfg.clusters.map (fun cc => (cc.name, connectToCluster connect cc)) := by
  have hmaps : (cfg.clusters.map (connectToCluster connect)).map
        (fun c => (c.config.name, c)) =
      cfg.clusters.map (fun cc => (cc.name, connectToCluster connect cc)) := by
    rw [List.map_map]
    apply List.map_congr_left
    intro cc _
    simp [Function.comp, connectToCluster_config]
  by_cases h : ((cfg.clusters.map (connectToCluster connect)).filter
      (fun c => c.connected)).length = 0 <;>
    simp [connectToAllClusters, h, hmaps]

theorem lookup_map_name {β : Type} (f : ClusterConfig → β) :
    ∀ (l : List ClusterConfig), (l.map (fun c => c.name)).Nodup →
      ∀ cc ∈ l, (l.map (fun c => (c.name, f c))).lookup cc.name = some (f cc) := by
  intro l
  induction l with
  | nil => intro _ cc hcc; cases hcc
  | cons a l ih =>
    intro hnd cc hcc
    rw [List.map_cons] at hnd ⊢
    rw [List.nodup_cons] at hnd
    rcases List.mem_cons.mp hcc with rfl | hmem
    · simp [List.lookup_cons]
    · have hne : (cc.name == a.name) = false := by
        rw [beq_eq_false_iff_ne]
        intro heq
        exact hnd.1 (heq ▸ List.mem_map_of_mem (fun c => c.name) hmem)
      rw [List.lookup_cons]
      simp only [hne]
      exact ih hnd.2 cc hmem

theorem lookup_map_name_mem {β : Type} (f : ClusterConfig → β) :
    ∀ (l : List ClusterConfig) (name : String) (b : β),
      (l.map (fun c => (c.name, f c))).lookup name = some b →
      ∃ cc ∈ l, cc.name = name ∧ b = f cc := by
  intro l
  induction l with
  | nil => intro name b h; cases h
  | cons a l ih =>
    intro name b h
    rw [List.map_cons] at h
    by_cases hn : name = a.name
    · refine ⟨a, List.mem_cons_self a l, hn.symm, ?_⟩
      simp [List.lookup, hn] at h
      exact h.symm
    · rw [List.lookup_cons, beq_eq_false_iff_ne.mpr hn] at h
      obtain ⟨cc, hcc, hname, hb⟩ := ih name b h
      exact ⟨cc, List.mem_cons_of_mem a hcc, hname, hb⟩

/-- C9: after initialization (whether or not an aggregated error is reported),
the registry map holds exactly one handle per configured cluster name —
unreachable clusters included, with `connected=false` and their error recorded
— and the steady-state operations (`GetClient`, `GetDefaultClient`,
`ListClusters`, `TestConnections`) leave the manager state unchanged. -/
theorem C9_registry_map_invariant (connect : ClusterConfig → ConnectOutcome)
    (cfg : MultiClusterConfig)
    (hu : (cfg.clusters.map (fun c => c.name)).Nodup) :
    (∀ cc ∈ cfg.clusters,
       (connectToAllClusters connect cfg).1.lookup cc.name =
         some (connectToCluster connect cc)) ∧
    (∀ name client,
       (connectToAllClusters connect cfg).1.lookup name = some client →
       ∃ cc ∈ cfg.clusters, cc.name = name ∧ client = connectToCluster connect cc) ∧
    (∀ cc ∈ cfg.clusters, ∀ e, connect cc = .fail e →
       (connectToAllClusters connect cfg).1.lookup cc.name =
         some { config := cc, connected := false, error := some e }) ∧
    (connectToAllClusters connect cfg).1.length = cfg.clusters.length ∧
    (∀ m name, (getClient m name).2 = m) ∧
    (∀ m, (getDefaultClient m).2 = m) ∧
    (∀ m, (listClusters m).2 = m) ∧
    (∀ probe m, (testConnections probe m).2 = m) := by
  have hcl := connectToAllClusters_clients connect cfg
  have hget : ∀ m name, (getClient m name).2 = m := by
    intro m name
    unfold getClient
    cases m.clients.lookup name with
    | none => rfl
    | some client =>
      cases hc : client.connected <;> simp [hc]
  refine ⟨?_, ?_, ?_, ?_, hget, ?_, fun m => rfl, fun probe m => rfl⟩
  · intro cc hcc
    rw [hcl]
    exact lookup_map_name (connectToCluster connect) cfg.clusters hu cc hcc
  · intro name client h
    rw [hcl] at h
    exact lookup_map_name_mem (connectToCluster connect) cfg.clusters name client h
  · intro cc hcc e he
    have h1 := lookup_map_name (connectToCluster connect) cfg.clusters hu cc hcc
    rw [hcl, h1]
    unfold connectToCluster
    rw [he]
  · rw [hcl, List.length_map]
  · intro m
    unfold getDefaultClient
    cases m.config.clusters.find? (fun cc => cc.isDefault) with
    | some cc => exact hget m cc.name
    | none =>
      cases (m.clients.map Prod.snd).find? (fun c => c.connected) with
      | some client => rfl
      | none => rfl

/-- Witness for C9: in the registry built from `wCfg` under `wConnect`, the
unreachable endpoint `a` is present with `connected=false` and its error. -/
theorem C9_registry_map_invariant_witness :
    (connectToAllClusters wConnect wCfg).1.lookup "a" =
      some { config := ⟨"a", "ctx-a", "", "", "", true⟩, connected := false,
             error := some "dial timeout" } :=
  (C9_registry_map_invariant wConnect wCfg (by decide)).2.2.1
    ⟨"a", "ctx-a", "", "", "", true⟩ (by decide) "dial timeout" (by decide)

/-! ## Workload manager (`internal/workload/manager.go`) -/

/-- Sequencing of an option-valued map over a list: models a Go loop that
appends one result per element, where an element may panic (`none`), aborting
the whole loop. -/
def collectSome {α β : Type} (f : α → Option β) : List α → Option (List β)
  | [] => some []
  | a :: l =>
    match f a with
    | none => none
    | some b => (collectSome f l).map (fun bs => b :: bs)

/-- Model of `workload.DeploymentInfo` from the source (`Age` carried as the formatted
string; `Error` empty unless populated; the `Namespace` field is renamed
`nspace`, that word being reserved in Lean). -/
structure DeploymentInfo where
  clusterName : String
  nspace : String
  name : String
  replicas : Int
  readyReplicas : Int
  image : String
  status : String
  age : String
  error : String
  deriving Repr, DecidableEq

/-- Model of `workload.formatDuration` from the source, on a duration in whole seconds
(Go truncates with `int(...)`, which is truncating division for non-negative
durations). -/
def formatDuration (seconds : Nat) : String :=
  if seconds < 60 then toString seconds ++ "s"
  else if seconds < 3600 then toString (seconds / 60) ++ "m"
  else if seconds < 86400 then toString (seconds / 3600) ++ "h"
  else toString (seconds / 86400) ++ "d"

/-- One item of the Kubernetes deployment list response, restricted to the
fields the source reads; `specReplicas` models the nullable `Spec.Replicas`
pointer (`*int32`), `ageSeconds` the elapsed time since creation. -/
structure K8sDeployment where
  name : String
  nspace : String
  specReplicas : Option Int
  statusReadyReplicas : Int
  containerImages : List String
  ageSeconds : Nat
  deriving Repr, DecidableEq

/-- The status-classification chain of `getDeploymentsFromCluster`: first
match among R == D, R > 0, R == 0, otherwise Unknown. -/
def deploymentStatus (replicas ready : Int) : String :=
  if ready = replicas then "Ready"
  else if ready > 0 then "Partial"
  else if ready = 0 then "NotReady"
  else "Unknown"

/-- Per-item processing in `getDeploymentsFromCluster`: image extraction,
status classification, record construction.  The source dereferences the
nullable `deployment.Spec.Replicas` with no nil guard (first in the status
comparison, again in the record); an absent count is a nil-pointer panic,
modelled as `none`. -/
def processDeployment (clusterName : String) (d : K8sDeployment) :
    Option DeploymentInfo :=
  let image := match d.containerImages with
    | [] => "unknown"
    | i :: _ => i
  match d.specReplicas with
  | none => none
  | some replicas =>
    some { clusterName := clusterName, nspace := d.nspace, name := d.name,
           replicas := replicas, readyReplicas := d.statusReadyReplicas,
           image := image,
           status := deploymentStatus replicas d.statusReadyReplicas,
           age := formatDuration d.ageSeconds, error := "" }

/-- Model of `workload.Manager.getDeploymentsFromCluster` from the source; `listDeps`
abstracts the Kubernetes list call per (cluster, namespace).  A failed client
lookup or a failed list call yields a single error-marked record; on a
successful response every item is processed (`none` = the nil-pointer panic
escaping). -/
def getDeploymentsFromCluster (m : Manager)
    (listDeps : String → String → Except String (List K8sDeployment))
    (clusterName nspace : String) : Option (List DeploymentInfo) :=
  match (getClient m clusterName).1 with
  | .error e =>
    some [{ clusterName := clusterName, nspace := "", name := "", replicas := 0,
            readyReplicas := 0, image := "", status := "", age := "",
            error := "Failed to get cluster client: " ++ e }]
  | .ok _ =>
    match listDeps clusterName nspace with
    | .error e =>
      some [{ clusterName := clusterName, nspace := "", name := "", replicas := 0,
              readyReplicas := 0, image := "", status := "", age := "",
              error := "Failed to list deployments: " ++ e }]
    | .ok items => collectSome (processDeployment clusterName) items

/-- Model of `workload.Manager.ListDeployments` from the source: an empty target list
resolves to all connected clusters; each target is queried (concurrently in the
source; here in input order, fixing one interleaving of the channel fan-in),
the per-cluster slices are concatenated, and the top-level error is always
nil. -/
def ListDeployments (m : Manager)
    (listDeps : String → String → Except String (List K8sDeployment))
    (clusterNames : List String) (nspace : String) :
    Option (List DeploymentInfo × Option String) :=
  let names := if clusterNames.isEmpty then
      (listClusters m).1.filterMap (fun s => if s.connected then some s.name else none)
    else clusterNames
  (collectSome (fun n => getDeploymentsFromCluster m listDeps n nspace) names).map
    (fun lists => (lists.flatten, none))

/-- A fan-out target fails when its client lookup fails or its list call
errors. -/
def clusterQueryFails (m : Manager)
    (listDeps : String → String → Except String (List K8sDeployment))
    (clusterName nspace : String) : Prop :=
  (∃ e, (getClient m clusterName).1 = .error e) ∨
  (∃ e, listDeps clusterName nspace = .error e)

/-! ## Mutation path (`DeployToCluster`, `DeployToMultipleClusters`) -/

/-- The parsed YAML document as far as `DeployToCluster` inspects it: `kind`
is `none` when the document carries no (string) kind field; empty `nspace`
means the manifest does not specify a namespace. -/
structure Manifest where
  kind : Option String
  name : String
  nspace : String
  deriving Repr, DecidableEq

/-- A remote read or write issued by the mutation path. -/
inductive RemoteOp where
  | get (nspace name : String)
  | create (nspace name : String)
  | update (nspace name : String) (resourceVersion : Nat)
  deriving Repr, DecidableEq

/-- Remote state of one cluster as the mutation path observes it: for each
(namespace, name) pair the stored object's resource version. -/
structure ClusterStore where
  objects : List ((String × String) × Nat)
  deriving Repr, DecidableEq

/-- The resource version the remote get returns for (namespace, name), if the
object exists. -/
def ClusterStore.lookupRV (s : ClusterStore) (nspace name : String) : Option Nat :=
  s.objects.lookup (nspace, name)

/-- Remote effect of a successful create or update: the object is stored under
the given resource version (newest entry shadows older ones). -/
def ClusterStore.setRV (s : ClusterStore) (nspace name : String) (rv : Nat) :
    ClusterStore :=
  { objects := ((nspace, name), rv) :: s.objects }

/-- What a successful mutation did: created the object, or updated it carrying
the fetched resource version forward. -/
inductive DeployAction where
  | created
  | updated (carriedRV : Nat)
  deriving Repr, DecidableEq

/-- The namespace the mutation targets: the manifest's own namespace unless
unspecified, in which case the call argument. -/
def effNs (mf : Manifest) (nspace : String) : String :=
  if mf.nspace = "" then nspace else mf.nspace

/-- Model of `workload.Manager.DeployToCluster` from the source, over an
already-parsed manifest: client lookup, kind dispatch (only `Deployment` is
implemented), then get-then-update-or-create against the target cluster store.
Returns the call result, the store after the call, and the trace of remote
calls issued.  An update carries the fetched resource version forward (the
server then stores a successor version); a create stores a fresh object. -/
def DeployToCluster (m : Manager) (store : ClusterStore)
    (clusterName nspace : String) (mf : Manifest) :
    Except String DeployAction × ClusterStore × List RemoteOp :=
  match (getClient m clusterName).1 with
  | .error e =>
    (.error ("failed to get cluster client for " ++ clusterName ++ ": " ++ e),
     store, [])
  | .ok _ =>
    match mf.kind with
    | none => (.error "YAML must specify a kind field", store, [])
    | some kind =>
      if kind = "Deployment" then
        match store.lookupRV (effNs mf nspace) mf.name with
        | some rv =>
          (.ok (.updated rv), store.setRV (effNs mf nspace) mf.name (rv + 1),
           [.get (effNs mf nspace) mf.name, .update (effNs mf nspace) mf.name rv])
        | none =>
          (.ok .created, store.setRV (effNs mf nspace) mf.name 1,
           [.get (effNs mf nspace) mf.name, .create (effNs mf nspace) mf.name])
      else
        (.error ("resource kind " ++ kind ++ " is not supported yet"), store, [])

/-- One target's outcome as `DeployToMultipleClusters` records it: `none` on
success, the error otherwise. -/
def deployOutcome (m : Manager) (store : ClusterStore)
    (clusterName nspace : String) (mf : Manifest) : Option String :=
  match (DeployToCluster m store clusterName nspace mf).1 with
  | .error e => some e
  | .ok _ => none

/-- Model of `workload.Manager.DeployToMultipleClusters` from the source: one
`DeployToCluster` call per requested target, each against that target's own
remote state (`stores`), the outcome recorded in the result map under the
target's name (the map modelled as an association list in input order). -/
def DeployToMultipleClusters (m : Manager) (stores : String → ClusterStore)
    (clusterNames : List String) (nspace : String) (mf : Manifest) :
    List (String × Option String) :=
  clusterNames.map (fun name => (name, deployOutcome m (stores name) name nspace mf))

/-- C3 counterexample: at desired D = 1, ready R = 2 (ready exceeding desired)
the source classification yields Partial — because the R > 0 branch is checked
before any R > D consideration — and not the Unknown the claim requires for
pairs outside its three named cases. -/
theorem C3_status_counterexample :
    deploymentStatus 1 2 = "Partial" ∧ deploymentStatus 1 2 ≠ "Unknown" := by
  constructor
  · decide
  · decide

/-- C3 amended: the classification is deterministic and total, with Ready iff
R = D, Partial iff R ≠ D and R > 0 (which includes R > D), NotReady iff R ≠ D
and R = 0 (i.e. R = 0 with D ≠ 0), and Unknown iff R ≠ D and R < 0. -/
theorem C3_status_amended (replicas ready : Int) :
    (deploymentStatus replicas ready = "Ready" ↔ ready = replicas) ∧
    (deploymentStatus replicas ready = "Partial" ↔ ready ≠ replicas ∧ ready > 0) ∧
    (deploymentStatus replicas ready = "NotReady" ↔ ready ≠ replicas ∧ ready = 0) ∧
    (deploymentStatus replicas ready = "Unknown" ↔ ready ≠ replicas ∧ ready < 0) := by
  unfold deploymentStatus
  split_ifs with h1 h2 h3
  · exact ⟨iff_of_true rfl h1,
      iff_of_false (by decide) (fun h => h.1 h1),
      iff_of_false (by decide) (fun h => h.1 h1),
      iff_of_false (by decide) (fun h => h.1 h1)⟩
  · exact ⟨iff_of_false (by decide) (fun h => h1 h),
      iff_of_true rfl ⟨h1, h2⟩,
      iff_of_false (by decide) (fun h => absurd h.2 (by omega)),
      iff_of_false (by decide) (fun h => absurd h.2 (by omega))⟩
  · exact ⟨iff_of_false (by decide) (fun h => h1 h),
      iff_of_false (by decide) (fun h => h2 h.2),
      iff_of_true rfl ⟨h1, h3⟩,
      iff_of_false (by decide) (fun h => absurd h.2 (by omega))⟩
  · exact ⟨iff_of_false (by decide) (fun h => h1 h),
      iff_of_false (by decide) (fun h => h2 h.2),
      iff_of_false (by decide) (fun h => h3 h.2),
      iff_of_true rfl ⟨h1, by omega⟩⟩

/-- Witness for the amended C3 at the concrete pairs (5, 5) and (5, 7). -/
theorem C3_status_amended_witness :
    deploymentStatus 5 5 = "Ready" ∧ deploymentStatus 5 7 = "Partial" :=
  ⟨(C3_status_amended 5 5).1.mpr rfl,
   (C3_status_amended 5 7).2.1.mpr (by constructor <;> decide)⟩

/-! ## Option-valued mapM helpers (panic propagation through a fold) -/

theorem collectSome_eq_none_iff {α β : Type} (f : α → Option β) :
    ∀ l : List α, collectSome f l = none ↔ ∃ x ∈ l, f x = none := by
  intro l
  induction l with
  | nil => simp [collectSome]
  | cons a l ih =>
    cases hf : f a with
    | none =>
      simp only [collectSome, hf]
      exact iff_of_true trivial ⟨a, List.mem_cons_self a l, hf⟩
    | some b =>
      simp only [collectSome, hf]
      cases hl : collectSome f l with
      | none =>
        rw [hl] at ih
        simp only [true_iff] at ih
        obtain ⟨x, hx, hfx⟩ := ih
        exact iff_of_true rfl ⟨x, List.mem_cons_of_mem a hx, hfx⟩
      | some bs =>
        rw [hl] at ih
        refine iff_of_false (by simp) ?_
        rintro ⟨x, hx, hfx⟩
        rcases List.mem_cons.mp hx with rfl | hmem
        · rw [hf] at hfx; cases hfx
        · cases ih.mpr ⟨x, hmem, hfx⟩

theorem processDeployment_eq_none_iff (clusterName : String) (d : K8sDeployment) :
    processDeployment clusterName d = none ↔ d.specReplicas = none := by
  unfold processDeployment
  cases d.specReplicas <;> simp

/-- C10: the per-item processing of `getDeploymentsFromCluster` dereferences
the nullable desired-replica count without a nil guard, so it is total exactly
when the count is present, and — with the client connected and the list call
succeeding — the whole per-cluster query panics exactly when some returned
item carries a nil count. -/
theorem C10_nil_replica_deref (m : Manager)
    (listDeps : String → String → Except String (List K8sDeployment))
    (clusterName nspace : String) (d : K8sDeployment) :
    (processDeployment clusterName d = none ↔ d.specReplicas = none) ∧
    ((∃ c, (getClient m clusterName).1 = .ok c) →
     ∀ items, listDeps clusterName nspace = .ok items →
       (getDeploymentsFromCluster m listDeps clusterName nspace = none ↔
        ∃ x ∈ items, x.specReplicas = none)) := by
  refine ⟨processDeployment_eq_none_iff clusterName d, ?_⟩
  rintro ⟨c, hc⟩ items hitems
  unfold getDeploymentsFromCluster
  rw [hc, hitems]
  rw [collectSome_eq_none_iff]
  constructor
  · rintro ⟨x, hx, hfx⟩
    exact ⟨x, hx, (processDeployment_eq_none_iff clusterName x).mp hfx⟩
  · rintro ⟨x, hx, hfx⟩
    exact ⟨x, hx, (processDeployment_eq_none_iff clusterName x).mpr hfx⟩

/-- A list response containing one deployment whose desired-replica pointer is
nil. -/
def wListDepsNil : String → String → Except String (List K8sDeployment) :=
  fun _ _ => .ok [⟨"web", "default", none, 0, ["nginx"], 10⟩]

/-- Witness for C10: against connected endpoint `b`, a response item with a
nil desired-replica count makes the per-cluster query panic. -/
theorem C10_nil_replica_deref_witness :
    getDeploymentsFromCluster c2mgr wListDepsNil "b" "default" = none :=
  ((C10_nil_replica_deref c2mgr wListDepsNil "b" "default"
      ⟨"web", "default", none, 0, ["nginx"], 10⟩).2
    ⟨connectToCluster wConnect ⟨"b", "ctx-b", "", "", "", false⟩, rfl⟩
    [⟨"web", "default", none, 0, ["nginx"], 10⟩] rfl).mpr
    ⟨⟨"web", "default", none, 0, ["nginx"], 10⟩, by decide, rfl⟩

theorem collectSome_isSome {α β : Type} (f : α → Option β) :
    ∀ l : List α, (∀ x ∈ l, f x ≠ none) → ∃ bs, collectSome f l = some bs := by
  intro l
  induction l with
  | nil => exact fun _ => ⟨[], rfl⟩
  | cons a l ih =>
    intro h
    cases hf : f a with
    | none => exact absurd hf (h a (List.mem_cons_self a l))
    | some b =>
      obtain ⟨bs, hbs⟩ := ih (fun x hx => h x (List.mem_cons_of_mem a hx))
      exact ⟨b :: bs, by simp [collectSome, hf, hbs]⟩

theorem collectSome_mem {α β : Type} (f : α → Option β) :
    ∀ (l : List α) (bs : List β), collectSome f l = some bs →
      ∀ x ∈ l, ∃ b ∈ bs, f x = some b := by
  intro l
  induction l with
  | nil => intro bs _ x hx; cases hx
  | cons a l ih =>
    intro bs h x hx
    cases hf : f a with
    | none => simp only [collectSome, hf] at h; cases h
    | some b =>
      simp only [collectSome, hf] at h
      cases hl : collectSome f l with
      | none => rw [hl] at h; cases h
      | some bs' =>
        rw [hl] at h
        rw [show Option.map (fun bs => b :: bs) (some bs') = some (b :: bs') from rfl] at h
        cases h
        rcases List.mem_cons.mp hx with rfl | hmem
        · exact ⟨b, List.mem_cons_self b bs', hf⟩
        · obtain ⟨b', hb', hfx⟩ := ih bs' hl x hmem
          exact ⟨b', List.mem_cons_of_mem b hb', hfx⟩

theorem append_ne_empty_of_length_ne_zero (s t : String) (hs : s.length ≠ 0) :
    s ++ t ≠ "" := by
  intro h
  have hlen := congrArg String.length h
  rw [String.length_append] at hlen
  have h0 : ("" : String).length = 0 := rfl
  rw [h0] at hlen
  omega

theorem getDeployments_fail_record (m : Manager)
    (listDeps : String → String → Except String (List K8sDeployment))
    (n nspace : String) (hfail : clusterQueryFails m listDeps n nspace) :
    ∃ rec, getDeploymentsFromCluster m listDeps n nspace = some [rec] ∧
      rec.clusterName = n ∧ rec.error ≠ "" := by
  unfold getDeploymentsFromCluster
  cases hg : (getClient m n).1 with
  | error e =>
    exact ⟨_, rfl, rfl, append_ne_empty_of_length_ne_zero _ e (by decide)⟩
  | ok c =>
    rcases hfail with ⟨e, he⟩ | ⟨e, he⟩
    · rw [hg] at he; cases he
    · rw [he]
      exact ⟨_, rfl, rfl, append_ne_empty_of_length_ne_zero _ e (by decide)⟩

/-- C4: the query fan-out over explicitly named targets (with no per-item
panic) returns a nil top-level error; every failing target is represented in
the result by an entry bearing its name with a populated error field, and
every slice a reachable target returns is contained in the result — no
per-cluster failure aborts the whole call. -/
theorem C4_listDeployments_fanout (m : Manager)
    (listDeps : String → String → Except String (List K8sDeployment))
    (names : List String) (nspace : String)
    (hne : names ≠ [])
    (hnp : ∀ n ∈ names, getDeploymentsFromCluster m listDeps n nspace ≠ none) :
    ∃ res, ListDeployments m listDeps names nspace = some (res, none) ∧
      ∀ n ∈ names,
        (clusterQueryFails m listDeps n nspace →
           ∃ i ∈ res, i.clusterName = n ∧ i.error ≠ "") ∧
        (∀ l, getDeploymentsFromCluster m listDeps n nspace = some l →
           ∀ i ∈ l, i ∈ res) := by
  obtain ⟨lists, hlists⟩ :=
    collectSome_isSome (fun n => getDeploymentsFromCluster m listDeps n nspace) names hnp
  have hisEmpty : names.isEmpty = false := by
    cases names with
    | nil => exact absurd rfl hne
    | cons a l => rfl
  refine ⟨lists.flatten, ?_, ?_⟩
  · simp [ListDeployments, hisEmpty, hlists]
  · intro n hn
    obtain ⟨b, hb, hfb⟩ :=
      collectSome_mem (fun n => getDeploymentsFromCluster m listDeps n nspace)
        names lists hlists n hn
    constructor
    · intro hfail
      obtain ⟨rec, hrec, hname, herr⟩ :=
        getDeployments_fail_record m listDeps n nspace hfail
      rw [hrec] at hfb
      cases hfb
      exact ⟨rec, List.mem_flatten.mpr ⟨[rec], hb, List.mem_cons_self rec []⟩,
             hname, herr⟩
    · intro l hl i hi
      rw [hl] at hfb
      cases hfb
      exact List.mem_flatten.mpr ⟨b, hb, hi⟩

/-- A concrete list oracle for witnesses: endpoint `b` returns one healthy
deployment, every other endpoint's list call fails. -/
def wListDeps : String → String → Except String (List K8sDeployment) :=
  fun n _ => if n = "b" then .ok [⟨"web", "default", some 3, 3, ["nginx"], 10⟩]
             else .error "boom"

/-- Witness for C4: fan-out over targets `a` (unconnected) and `b` (healthy)
returns a nil top-level error and an error-marked entry for `a`. -/
theorem C4_listDeployments_fanout_witness :
    ∃ res, ListDeployments c2mgr wListDeps ["a", "b"] "default" = some (res, none) ∧
      ∃ i ∈ res, i.clusterName = "a" ∧ i.error ≠ "" := by
  obtain ⟨res, hres, hprop⟩ :=
    C4_listDeployments_fanout c2mgr wListDeps ["a", "b"] "default"
      (by decide) (by decide)
  exact ⟨res, hres,
    (hprop "a" (List.mem_cons_self "a" ["b"])).1
      (Or.inl ⟨"cluster a is not connected: dial timeout", rfl⟩)⟩

/-- C5: the mutation fan-out returns one outcome entry per requested target,
keyed by that target and holding exactly that target's own outcome (nil on
success, its own error on failure) — an error on target A never appears under
target B and never suppresses B's attempt, since B's entry is a function of B
alone. -/
theorem C5_mutateAll_outcome_map (m : Manager) (stores : String → ClusterStore)
    (clusterNames : List String) (nspace : String) (mf : Manifest)
    (hnd : clusterNames.Nodup) :
    (DeployToMultipleClusters m stores clusterNames nspace mf).length
        = clusterNames.length ∧
    (DeployToMultipleClusters m stores clusterNames nspace mf).map Prod.fst
        = clusterNames ∧
    ∀ n ∈ clusterNames,
      (DeployToMultipleClusters m stores clusterNames nspace mf).lookup n =
        some (deployOutcome m (stores n) n nspace mf) := by
  refine ⟨List.length_map _ _, ?_, ?_⟩
  · rw [DeployToMultipleClusters, List.map_map]
    exact List.map_id clusterNames
  · intro n hn
    exact List.lookup_graph (fun name => deployOutcome m (stores name) name nspace mf) hn

/-- The manifest used by mutation witnesses: a Deployment named `web` with no
namespace of its own. -/
def wManifest : Manifest := { kind := some "Deployment", name := "web", nspace := "" }

/-- Witness for C5: over targets `a` (unconnected) and `b` (healthy, empty
store), `b`'s entry records success while `a`'s entry records its own client
error. -/
theorem C5_mutateAll_outcome_map_witness :
    (DeployToMultipleClusters c2mgr (fun _ => ⟨[]⟩) ["a", "b"] "default"
        wManifest).lookup "b" = some none ∧
    (DeployToMultipleClusters c2mgr (fun _ => ⟨[]⟩) ["a", "b"] "default"
        wManifest).lookup "a" =
      some (some ("failed to get cluster client for a: " ++
        "cluster a is not connected: dial timeout")) := by
  have h := C5_mutateAll_outcome_map c2mgr (fun _ => ⟨[]⟩) ["a", "b"] "default"
    wManifest (by decide)
  constructor
  · rw [h.2.2 "b" (by decide)]
    rfl
  · rw [h.2.2 "a" (by decide)]
    rfl

/-- C7: two successive `DeployToCluster` calls against a connected target with
an unchanged Deployment manifest and no interleaved external change: the
second call finds the object stored by the first, carries its resource version
forward, and issues a get followed by an update — never a second create. -/
theorem C7_deploy_idempotent (m : Manager) (store : ClusterStore)
    (clusterName nspace : String) (mf : Manifest)
    (hc : ∃ c, (getClient m clusterName).1 = .ok c)
    (hk : mf.kind = some "Deployment") :
    ∃ rv,
      (DeployToCluster m (DeployToCluster m store clusterName nspace mf).2.1
          clusterName nspace mf).1 = .ok (.updated rv) ∧
      ((DeployToCluster m store clusterName nspace mf).2.1).lookupRV
          (effNs mf nspace) mf.name = some rv ∧
      (DeployToCluster m (DeployToCluster m store clusterName nspace mf).2.1
          clusterName nspace mf).2.2 =
        [.get (effNs mf nspace) mf.name, .update (effNs mf nspace) mf.name rv] := by
  obtain ⟨c, hcc⟩ := hc
  have hrv1 : ∃ rv1, (DeployToCluster m store clusterName nspace mf).2.1.lookupRV
      (effNs mf nspace) mf.name = some rv1 := by
    unfold DeployToCluster
    rw [hcc, hk]
    simp only [if_pos rfl]
    cases h0 : store.lookupRV (effNs mf nspace) mf.name with
    | some rv0 =>
      refine ⟨rv0 + 1, ?_⟩
      simp only [h0]
      unfold ClusterStore.setRV ClusterStore.lookupRV
      simp [List.lookup_cons]
    | none =>
      refine ⟨1, ?_⟩
      simp only [h0]
      unfold ClusterStore.setRV ClusterStore.lookupRV
      simp [List.lookup_cons]
  obtain ⟨rv1, hrv1⟩ := hrv1
  refine ⟨rv1, ?_, hrv1, ?_⟩
  · conv_lhs => rw [DeployToCluster]
    rw [hcc, hk]
    simp [hrv1]
  · conv_lhs => rw [DeployToCluster]
    rw [hcc, hk]
    simp [hrv1]

/-- Witness for C7: deploying `wManifest` twice to connected endpoint `b`
starting from an empty store yields an update carrying resource version 1 on
the second call. -/
theorem C7_deploy_idempotent_witness :
    ∃ rv,
      (DeployToCluster c2mgr (DeployToCluster c2mgr ⟨[]⟩ "b" "default" wManifest).2.1
          "b" "default" wManifest).1 = .ok (.updated rv) ∧
      ((DeployToCluster c2mgr ⟨[]⟩ "b" "default" wManifest).2.1).lookupRV
          (effNs wManifest "default") wManifest.name = some rv ∧
      (DeployToCluster c2mgr (DeployToCluster c2mgr ⟨[]⟩ "b" "default" wManifest).2.1
          "b" "default" wManifest).2.2 =
        [.get (effNs wManifest "default") wManifest.name,
         .update (effNs wManifest "default") wManifest.name rv] :=
  C7_deploy_idempotent c2mgr ⟨[]⟩ "b" "default" wManifest
    ⟨connectToCluster wConnect ⟨"b", "ctx-b", "", "", "", false⟩, rfl⟩ rfl

/-- C8: with the target's client available, a manifest lacking a kind field or
declaring any kind other than Deployment is rejected with an explicit error,
the remote state is untouched, and no remote read or write is issued. -/
theorem C8_unsupported_kind (m : Manager) (store : ClusterStore)
    (clusterName nspace : String) (mf : Manifest)
    (hc : ∃ c, (getClient m clusterName).1 = .ok c)
    (hk : ∀ k, mf.kind = some k → k ≠ "Deployment") :
    (∃ e, (DeployToCluster m store clusterName nspace mf).1 = .error e) ∧
    (DeployToCluster m store clusterName nspace mf).2.1 = store ∧
    (DeployToCluster m store clusterName nspace mf).2.2 = [] := by
  obtain ⟨c, hcc⟩ := hc
  cases hmk : mf.kind with
  | none =>
    refine ⟨⟨"YAML must specify a kind field", ?_⟩, ?_, ?_⟩ <;>
      simp [DeployToCluster, hcc, hmk]
  | some k =>
    have hne := hk k hmk
    refine ⟨⟨"resource kind " ++ k ++ " is not supported yet", ?_⟩, ?_, ?_⟩ <;>
      simp [DeployToCluster, hcc, hmk, hne]

/-- A manifest declaring an unsupported kind. -/
def wSvcManifest : Manifest := { kind := some "Service", name := "svc", nspace := "" }

/-- Witness for C8: deploying a Service manifest to connected endpoint `b` is
rejected with no remote call and no state change. -/
theorem C8_unsupported_kind_witness :
    (∃ e, (DeployToCluster c2mgr ⟨[]⟩ "b" "default" wSvcManifest).1 = .error e) ∧
    (DeployToCluster c2mgr ⟨[]⟩ "b" "default" wSvcManifest).2.1 = (⟨[]⟩ : ClusterStore) ∧
    (DeployToCluster c2mgr ⟨[]⟩ "b" "default" wSvcManifest).2.2 = [] :=
  C8_unsupported_kind c2mgr ⟨[]⟩ "b" "default" wSvcManifest
    ⟨connectToCluster wConnect ⟨"b", "ctx-b", "", "", "", false⟩, rfl⟩
    (fun k hx => by cases hx; decide)

end AutozCT
